import Mathlib

/-!
Verification development for the `gamma` CPU raytracing engine of the
bigraytracer repository.

Shallow embedding conventions:
- Go `float64` is idealized as `ℚ` (exact arithmetic). Where Go float
  division by zero would produce Inf/NaN, `ℚ` division yields 0; no claim
  below depends on such a value.
- Go `int` is idealized as `ℤ` (no overflow is relevant at the sizes used).
- A Go run-time panic (e.g. `make` with a negative length, slice index out
  of range, nil pointer dereference) is modelled by `Option.none` on the
  result of the operation that panics.
- An in-place method on a pointer receiver is modelled as a function that
  returns the updated value (state-transformer view).
- `math.Sqrt` is an external library function; the claims proved here do
  not depend on its values, so it is passed as an abstract function
  parameter `sq : ℚ → ℚ`.
- File-system and image-encoding effects of `Export` are modelled by an
  oracle `OsEnv` (whether `os.Create` succeeds, whether the png/jpeg
  encoders fail, how many bytes they write) plus an explicit `FileState`
  describing the file at the target path when `Export` returns.
-/

namespace geometry

/-- `Vec3` from gamma/geometry (src/unnamed/part_001): a three-dimensional
vector with `X`, `Y`, `Z` components (`float64` idealized as `ℚ`). -/
structure Vec3 where
  X : ℚ
  Y : ℚ
  Z : ℚ
deriving DecidableEq

/-- `NewVec3` from the source: builds a `Vec3` from components. -/
def NewVec3 (x y z : ℚ) : Vec3 := ⟨x, y, z⟩

/-- `ZERO_VEC3` from the source: the zero vector. -/
def ZERO_VEC3 : Vec3 := NewVec3 0 0 0

/-- In-place `func (v *Vec3) Add(v2 Vec3)` from the source, modelled as a
state transformer returning the updated receiver. -/
def Vec3.Add (v v2 : Vec3) : Vec3 := ⟨v.X + v2.X, v.Y + v2.Y, v.Z + v2.Z⟩

/-- Pure `func Add(v1, v2 Vec3) Vec3` from the source. -/
def Add (v1 v2 : Vec3) : Vec3 := ⟨v1.X + v2.X, v1.Y + v2.Y, v1.Z + v2.Z⟩

/-- In-place `func (v *Vec3) Sub(v2 Vec3)` from the source. -/
def Vec3.Sub (v v2 : Vec3) : Vec3 := ⟨v.X - v2.X, v.Y - v2.Y, v.Z - v2.Z⟩

/-- Pure `func Sub(v1, v2 Vec3) Vec3` from the source. -/
def Sub (v1 v2 : Vec3) : Vec3 := ⟨v1.X - v2.X, v1.Y - v2.Y, v1.Z - v2.Z⟩

/-- In-place `func (v *Vec3) Mul(scalar float64)` from the source. -/
def Vec3.Mul (v : Vec3) (scalar : ℚ) : Vec3 :=
  ⟨v.X * scalar, v.Y * scalar, v.Z * scalar⟩

/-- Pure `func Mul(v1 Vec3, scalar float64) Vec3` from the source. -/
def Mul (v1 : Vec3) (scalar : ℚ) : Vec3 :=
  ⟨v1.X * scalar, v1.Y * scalar, v1.Z * scalar⟩

/-- In-place `func (v *Vec3) Div(scalar float64)` from the source. In `ℚ`,
division by zero yields 0 where Go floats would yield Inf/NaN; both the
in-place and the pure variant use the same division, so the equivalence
claims are unaffected. -/
def Vec3.Div (v : Vec3) (scalar : ℚ) : Vec3 :=
  ⟨v.X / scalar, v.Y / scalar, v.Z / scalar⟩

/-- Pure `func Div(v1 Vec3, scalar float64) Vec3` from the source. -/
def Div (v1 : Vec3) (scalar : ℚ) : Vec3 :=
  ⟨v1.X / scalar, v1.Y / scalar, v1.Z / scalar⟩

/-- Method `func (v *Vec3) Dot(v2 Vec3) float64` from the source. -/
def Vec3.Dot (v v2 : Vec3) : ℚ := v.X * v2.X + v.Y * v2.Y + v.Z * v2.Z

/-- Free `func Dot(v1, v2 Vec3) float64` from the source. -/
def Dot (v1 v2 : Vec3) : ℚ := v1.X * v2.X + v1.Y * v2.Y + v1.Z * v2.Z

/-- In-place `func (v *Vec3) Negate()` from the source. -/
def Vec3.Negate (v : Vec3) : Vec3 := ⟨-v.X, -v.Y, -v.Z⟩

/-- Pure `func (v Vec3) Neg() Vec3` from the source (value receiver). -/
def Vec3.Neg (v : Vec3) : Vec3 := ⟨-v.X, -v.Y, -v.Z⟩

/-- Method `func (v *Vec3) Length() float64` = `math.Sqrt(v.Dot(*v))` from
the source; `math.Sqrt` is the abstract parameter `sq`. -/
def Vec3.Length (sq : ℚ → ℚ) (v : Vec3) : ℚ := sq (Vec3.Dot v v)

/-- Free `func Length(v Vec3) float64` from the source. -/
def Length (sq : ℚ → ℚ) (v : Vec3) : ℚ := sq (Dot v v)

/-- Method `func (v *Vec3) SqrLength() float64` from the source. -/
def Vec3.SqrLength (v : Vec3) : ℚ := Vec3.Dot v v

/-- In-place `func (v *Vec3) Normalize()` = `v.Div(v.Length())` from the
source. -/
def Vec3.Normalize (sq : ℚ → ℚ) (v : Vec3) : Vec3 :=
  Vec3.Div v (Vec3.Length sq v)

/-- Pure `func (v Vec3) Normal() Vec3` from the source: the value receiver
copies `v`, normalizes the copy in place and returns it. -/
def Vec3.Normal (sq : ℚ → ℚ) (v : Vec3) : Vec3 := Vec3.Normalize sq v

/-- `Ray` from gamma/geometry (src/unnamed/part_001): origin plus
direction. -/
structure Ray where
  orig : Vec3
  dir : Vec3
deriving DecidableEq

/-- `NewRay` from the source (the Go pointer is modelled by the value). -/
def NewRay (origin direction : Vec3) : Ray := ⟨origin, direction⟩

/-- `func (r *Ray) Origin() Vec3` from the source. -/
def Ray.Origin (r : Ray) : Vec3 := r.orig

/-- `func (r *Ray) Direction() Vec3` from the source. -/
def Ray.Direction (r : Ray) : Vec3 := r.dir

/-- `func (r *Ray) At(t float64) Vec3 = Add(r.orig, Mul(r.dir, t))` from
the source. -/
def Ray.At (r : Ray) (t : ℚ) : Vec3 := Add r.orig (Mul r.dir t)

end geometry

open geometry

/-- Modelled from the spec: the package `gamma/scene` is imported by the
renderer and by main but its source is not under src. Spec section 3 — a
Material describes appearance: base color, reflectivity coefficient and
optional emission. -/
structure Material where
  baseColor : Vec3
  reflectivity : ℚ
  emission : Vec3

/-- Modelled from the spec: a hit record carries hit point, surface normal,
distance t, and a reference to the material of the primitive (spec
section 3, missing from src together with the scene package). -/
structure HitRecord where
  point : Vec3
  normal : Vec3
  t : ℚ
  material : Material

/-- Modelled from the spec: a Primitive is polymorphic over the single
capability intersect(ray, t-range) -> optional hit record (spec section 3);
the Go interface dispatch is modelled by a function field. -/
structure Primitive where
  intersect : Ray → ℚ → ℚ → Option HitRecord

/-- Modelled from the spec: a light source given by position and intensity
(spec section 3; the scene package is missing from src). -/
structure Light where
  position : Vec3
  intensity : ℚ

/-- Modelled from the spec: a Scene is a collection of Primitives plus zero
or more light sources (spec section 3; the scene package is missing from
src, only its callers are present). -/
structure Scene where
  primitives : List Primitive
  lights : List Light

/-- Modelled from the spec: `scene.NewScene()` as called by main
(src/unnamed/part_000) constructs a scene; the empty scene has no
primitives and no lights. -/
def NewScene : Scene := ⟨[], []⟩

/-- Modelled from the spec: `nearestHit(ray, tMin, tMax)` (spec section
4.4) iterates all primitives and keeps the smallest valid t; ties at
identical t are broken by insertion order (the earlier primitive wins). -/
def nearestHit (s : Scene) (r : Ray) (tMin tMax : ℚ) : Option HitRecord :=
  s.primitives.foldl
    (fun best p =>
      match p.intersect r tMin tMax with
      | none => best
      | some h =>
        match best with
        | none => some h
        | some b => if h.t < b.t then some h else some b)
    none

/-- Modelled from the spec: the type `SupportedImageFormats` is referenced
by `Export` in renderer.go but declared in a file not under src. Spec
section 4.7 names PNG and JPEG and says the format set is extensible; any
other value is carried by the `other` constructor. -/
inductive ImageFormat where
  | PNG
  | JPEG
  | other (v : ℕ)
deriving DecidableEq

/-- Errors surfaced by the renderer code in renderer.go: the
cannot-create-image-data-before-rendering error of `createImageData`, a
failure of `os.Create`, a failure inside `png.Encode`/`jpeg.Encode`
(modelled abstractly), and the unsupported-image-format error of the
default switch arm of `Export`. -/
inductive GoError where
  | notRendered
  | createFailed
  | encodeFailed
  | unsupportedFormat (f : ImageFormat)
deriving DecidableEq

/-- State of the file at the path passed to `Export` when the call
returns: either no file was created, or `os.Create` created/truncated the
file and `bytes` bytes were written to it. -/
inductive FileState where
  | noFile
  | file (bytes : ℕ)
deriving DecidableEq

/-- Oracle for the external effects used by `Export`: whether `os.Create`
succeeds, whether `png.Encode`/`jpeg.Encode` (Go standard library,
external to the repository) fail, and how many bytes each writes. -/
structure OsEnv where
  createOk : Bool
  pngErr : Bool
  pngBytes : ℕ
  jpegErr : Bool
  jpegBytes : ℕ

/-- `Renderer` from gamma/renderer/renderer.go: image dimensions, derived
viewport geometry, focal length, a borrowed scene pointer (nil modelled as
`none`), the pixel buffer, and the rendered flag. -/
structure Renderer where
  imgWidth : ℤ
  imgHeight : ℤ
  viewportWidth : ℚ
  viewportHeight : ℚ
  focalLength : ℚ
  scene : Option Scene
  pixelBuffer : List (List Vec3)
  rendered : Bool

/-- Buffer allocation loop shared verbatim by `NewRenderer` and `Resize`:
append `imgHeight` rows of `make([]geometry.Vec3, imgWidth)`. A Go `make`
with a negative length panics at run time (modelled as `none`); the loop
body never runs when `imgHeight <= 0`, so the panic occurs exactly when
`imgHeight > 0` and `imgWidth < 0`. `make` zero-initializes, so each cell
is the zero `Vec3`. -/
def mkBuffer (imgWidth imgHeight : ℤ) : Option (List (List Vec3)) :=
  if 0 < imgHeight ∧ imgWidth < 0 then none
  else some (List.replicate imgHeight.toNat
    (List.replicate imgWidth.toNat (NewVec3 0 0 0)))

/-- `NewRenderer` from renderer.go: viewportHeight = 2.0, viewportWidth =
2.0 * w / h (float division; for h = 0 Go would produce Inf/NaN where `ℚ`
yields 0 — no claim below reads that value), focalLength = 1.0, a freshly
allocated zeroed buffer, no scene, rendered = false. The function performs
no validation of the dimensions and has no error result. -/
def NewRenderer (imgWidth imgHeight : ℤ) : Option Renderer :=
  (mkBuffer imgWidth imgHeight).map fun buffer =>
    { imgWidth := imgWidth
      imgHeight := imgHeight
      viewportWidth := 2 * (imgWidth : ℚ) / (imgHeight : ℚ)
      viewportHeight := 2
      focalLength := 1
      scene := none
      pixelBuffer := buffer
      rendered := false }

/-- `func (r *Renderer) SetScene(scene *scene.Scene)` from renderer.go. -/
def Renderer.SetScene (r : Renderer) (s : Scene) : Renderer :=
  { r with scene := some s }

/-- `func (r *Renderer) Render()` from renderer.go. The body is a stub:
the comment says "do the rendering..." and the only statement sets
rendered = true; the pixel buffer is left untouched. -/
def Renderer.Render (r : Renderer) : Renderer :=
  { r with rendered := true }

/-- `func (r *Renderer) Resize(imgWidth, imgHeight int)` from renderer.go:
store the new dimensions, recompute viewportWidth, reallocate the buffer,
reset rendered = false. viewportHeight and focalLength are not touched.
No validation is performed. -/
def Renderer.Resize (r : Renderer) (imgWidth imgHeight : ℤ) : Option Renderer :=
  (mkBuffer imgWidth imgHeight).map fun buffer =>
    { r with
      imgWidth := imgWidth
      imgHeight := imgHeight
      viewportWidth := 2 * (imgWidth : ℚ) / (imgHeight : ℚ)
      pixelBuffer := buffer
      rendered := false }

/-- One RGBA pixel of the exported 8-bit image (each channel in 0..255). -/
structure RGBA where
  red : ℕ
  green : ℕ
  blue : ℕ
  alpha : ℕ
deriving DecidableEq

/-- Channel conversion performed by `createImageData` in renderer.go:
`uint8(c * 255)` where `c` is a `float64` channel. The Go conversion
truncates toward zero; for values in [0, 256) this is the floor, and for
values outside that range the Go result is implementation-defined (the
claims below only evaluate it in range). There is no clamping and no
rounding in the source. -/
def goUint8 (q : ℚ) : ℕ := (⌊q⌋).toNat % 256

/-- Pixel conversion of one buffer cell in `createImageData`: red, green,
blue from the three channels scaled by 255, alpha always 255. -/
def rgbaOfVec (v : Vec3) : RGBA :=
  ⟨goUint8 (v.X * 255), goUint8 (v.Y * 255), goUint8 (v.Z * 255), 255⟩

/-- Iteration of a Go `for i := 0; i < n; i++` loop whose body may panic
(`none`), collecting one value per index. -/
def forRange (f : ℕ → Option α) : ℕ → Option (List α)
  | 0 => some []
  | n + 1 => (f 0).bind fun a => (forRange (fun i => f (i + 1)) n).map (a :: ·)

/-- Buffer access `r.pixelBuffer[y][x]` from `createImageData`; an index
out of range is a Go panic (`none`). -/
def Renderer.pixelAt (r : Renderer) (y x : ℕ) : Option Vec3 :=
  (r.pixelBuffer[y]?).bind fun row => row[x]?

/-- `func (r *Renderer) createImageData() (*image.RGBA, error)` from
renderer.go: error when not yet rendered, otherwise iterate y over the
image height and x over the width, converting `pixelBuffer[y][x]` to an
8-bit RGBA pixel with alpha 255. The RGBA raster is modelled as the
row-major list of its pixel rows; the outer `Option` is a Go panic from
out-of-range buffer indexing. -/
def Renderer.createImageData (r : Renderer) :
    Option (Except GoError (List (List RGBA))) :=
  if r.rendered = false then some (.error .notRendered)
  else
    (forRange
      (fun y => forRange (fun x => (r.pixelAt y x).map rgbaOfVec)
        r.imgWidth.toNat)
      r.imgHeight.toNat).map .ok

/-- `func (r *Renderer) Export(filename string, format ...)` from
renderer.go: build the image data (returning its error if any, before any
file is touched); then `os.Create` the file (create or truncate); then a
goroutine encodes into the file — PNG and JPEG through the standard
library (oracle), any other format through the default arm, which writes
nothing and produces the unsupported-image-format error; `Export` waits on
the completion channel and returns the encode error. The renderer itself
is never mutated. -/
def Renderer.Export (r : Renderer) (env : OsEnv) (format : ImageFormat) :
    Option (Except GoError Unit × FileState) :=
  match r.createImageData with
  | none => none
  | some (.error e) => some (.error e, .noFile)
  | some (.ok _img) =>
    if env.createOk = false then some (.error .createFailed, .noFile)
    else
      match format with
      | .PNG =>
        some (if env.pngErr then .error .encodeFailed else .ok (),
          .file env.pngBytes)
      | .JPEG =>
        some (if env.jpegErr then .error .encodeFailed else .ok (),
          .file env.jpegBytes)
      | .other v =>
        some (.error (.unsupportedFormat (.other v)), .file 0)

/-- Shape invariant of the pixel buffer: exactly `imgHeight` rows, each of
exactly `imgWidth` cells (compared through `ℤ`, the type of the stored
dimensions). -/
def Renderer.shapeOk (r : Renderer) : Bool :=
  decide ((r.pixelBuffer.length : ℤ) = r.imgHeight) &&
    r.pixelBuffer.all fun row => decide ((row.length : ℤ) = r.imgWidth)

/-- One operation of the public renderer surface, for stating invariants
over arbitrary call sequences. -/
inductive ROp where
  | setSceneOp (s : Scene)
  | renderOp
  | resizeOp (w h : ℤ)
  | exportOp (env : OsEnv) (fmt : ImageFormat)

/-- Apply one operation; `none` is a Go panic. `Export` never mutates the
renderer, so its state effect is the identity. -/
def applyOp (r : Renderer) : ROp → Option Renderer
  | .setSceneOp s => some (r.SetScene s)
  | .renderOp => some r.Render
  | .resizeOp w h => r.Resize w h
  | .exportOp env fmt => (r.Export env fmt).map fun _ => r

/-- Apply a sequence of operations, propagating panics. -/
def applyOps : Renderer → List ROp → Option Renderer
  | r, [] => some r
  | r, op :: rest => (applyOp r op).bind fun r' => applyOps r' rest

/-- Dimension side condition used by the amended shape claims: a resize
must carry nonnegative dimensions; every other operation is fine. -/
def dimsOk : ROp → Bool
  | .resizeOp w h => decide (0 ≤ w) && decide (0 ≤ h)
  | _ => true

/-- Stated from the spec wording, for comparison with the code (claim C1):
the spec converts a channel via round(clamp(value,0,1) * 255). -/
def specChannel (q : ℚ) : ℤ := round (min (max q 0) 1 * 255)

/-- Modelled from the spec: camera ray generation (spec section 4.3) is
absent from src. For pixel (x, y): u = (x + 0.5)/W, v = (y + 0.5)/H,
direction = ((u - 0.5) * viewportWidth, (0.5 - v) * viewportHeight,
-focalLength) from the camera at the origin, not pre-normalized. -/
def cameraRay (r : Renderer) (x y : ℕ) : Ray :=
  ⟨NewVec3 0 0 0,
    NewVec3 ((((x : ℚ) + 1/2) / (r.imgWidth : ℚ) - 1/2) * r.viewportWidth)
      ((1/2 - ((y : ℚ) + 1/2) / (r.imgHeight : ℚ)) * r.viewportHeight)
      (-r.focalLength)⟩

/-- Modelled from the spec: mirror reflection direction (spec section 4.5):
incoming - 2 * dot(incoming, normal) * normal. -/
def reflectDir (incoming normal : Vec3) : Vec3 :=
  Sub incoming (Mul normal (2 * Dot incoming normal))

/-- Modelled from the spec: the local diffuse contribution at a hit (spec
section 4.5): baseColor scaled by max(0, dot(normal, lightDirection))
summed over all lights, each attenuated by a shadow test casting a ray
from the hit point toward the light within (tMin, lightDistance). The
square root needed for the light distance and direction is the abstract
`sq`. -/
def localColor (sq : ℚ → ℚ) (s : Scene) (tMin : ℚ) (h : HitRecord) : Vec3 :=
  s.lights.foldl
    (fun acc l =>
      let toLight := Sub l.position h.point
      let lightDir := Vec3.Normal sq toLight
      let lightDist := Length sq toLight
      if (nearestHit s ⟨h.point, lightDir⟩ tMin lightDist).isSome then acc
      else Add acc
        (Mul h.material.baseColor (max 0 (Dot h.normal lightDir) * l.intensity)))
    (NewVec3 0 0 0)

/-- Modelled from the spec: the recursive integrator colorFor(ray, depth)
(spec section 4.5) is absent from src. Recursion depth is encoded as fuel
(remaining bounces plus one): zero fuel means the depth exceeded the
maximum bounce count and returns black; otherwise a miss returns the
configured background color, and a hit blends the local diffuse color with
the recursively computed reflection when reflectivity is positive. -/
def colorFor (sq : ℚ → ℚ) (s : Scene) (bg : Vec3) (tMin tMax : ℚ) :
    ℕ → Ray → Vec3
  | 0, _ => NewVec3 0 0 0
  | fuel + 1, ray =>
    match nearestHit s ray tMin tMax with
    | none => bg
    | some h =>
      let lc := localColor sq s tMin h
      if 0 < h.material.reflectivity then
        let rc := colorFor sq s bg tMin tMax fuel
          ⟨h.point, reflectDir ray.dir h.normal⟩
        Add (Mul lc (1 - h.material.reflectivity))
          (Mul rc h.material.reflectivity)
      else lc

/-- Modelled from the spec: the rendering loop of render() (spec section
4.6) is a stub in src (renderer.go, "do the rendering..."); this models
the specified behavior: for every pixel compute the camera ray, invoke the
integrator with initial depth 0 (fuel maxDepth + 1), write the color into
the buffer cell, then set rendered = true. Dereferencing a nil scene would
be a Go panic (`none`). -/
def Renderer.renderModel (sq : ℚ → ℚ) (bg : Vec3) (maxDepth : ℕ)
    (tMin tMax : ℚ) (r : Renderer) : Option Renderer :=
  r.scene.map fun s =>
    { r with
      pixelBuffer :=
        (List.range r.imgHeight.toNat).map fun y =>
          (List.range r.imgWidth.toNat).map fun x =>
            colorFor sq s bg tMin tMax (maxDepth + 1) (cameraRay r x y)
      rendered := true }

/-- Concrete 1-by-1 renderer whose single buffer cell is (1/2, 1/2, 1/2),
marked rendered; used to exhibit the truncation behavior of the export
conversion. -/
def rHalf : Renderer :=
  { imgWidth := 1
    imgHeight := 1
    viewportWidth := 2
    viewportHeight := 2
    focalLength := 1
    scene := none
    pixelBuffer := [[NewVec3 (1/2) (1/2) (1/2)]]
    rendered := true }

/-- Concrete 1-by-1 renderer with a zero buffer cell, marked rendered;
used as input for the export witnesses. -/
def rNull : Renderer :=
  { imgWidth := 1
    imgHeight := 1
    viewportWidth := 2
    viewportHeight := 2
    focalLength := 1
    scene := none
    pixelBuffer := [[NewVec3 0 0 0]]
    rendered := false }

/-- Concrete rendered variant of `rNull`. -/
def rDone : Renderer := rNull.Render

/-- Concrete 2-by-2 renderer holding an empty scene, not yet rendered;
used as input for the empty-scene background witness. -/
def rEmptyScene : Renderer :=
  { imgWidth := 2
    imgHeight := 2
    viewportWidth := 2
    viewportHeight := 2
    focalLength := 1
    scene := some NewScene
    pixelBuffer := [[NewVec3 0 0 0, NewVec3 0 0 0],
      [NewVec3 0 0 0, NewVec3 0 0 0]]
    rendered := false }

/-- Concrete oracle: file creation succeeds, both encoders succeed writing
seven bytes. -/
def env0 : OsEnv :=
  { createOk := true, pngErr := false, pngBytes := 7,
    jpegErr := false, jpegBytes := 7 }

/-- Concrete operation sequence used by the shape-invariant witness. -/
def opsC9 : List ROp := [ROp.renderOp, ROp.resizeOp 3 2]

theorem forRange_congr {α : Type} (n : ℕ) (f g : ℕ → Option α)
    (h : ∀ i, i < n → f i = g i) : forRange f n = forRange g n := by
  induction n generalizing f g with
  | zero => rfl
  | succ n ih =>
    simp only [forRange]
    rw [h 0 (Nat.succ_pos n), ih (fun i => f (i + 1)) (fun i => g (i + 1))
      (fun i hi => h (i + 1) (Nat.succ_lt_succ hi))]

theorem forRange_get {α β : Type} (L : List α) (g : α → β) :
    forRange (fun i => (L[i]?).map g) L.length = some (L.map g) := by
  induction L with
  | nil => rfl
  | cons a tl ih =>
    simp only [List.length_cons, forRange, List.getElem?_cons_zero,
      List.getElem?_cons_succ, Option.map_some', Option.some_bind, ih,
      Option.map_some', List.map_cons]

theorem shapeOk_iff (r : Renderer) :
    r.shapeOk = true ↔
      (r.pixelBuffer.length : ℤ) = r.imgHeight ∧
        ∀ row ∈ r.pixelBuffer, (row.length : ℤ) = r.imgWidth := by
  simp [Renderer.shapeOk, List.all_eq_true]

theorem createImageData_eq (r : Renderer) (hr : r.rendered = true)
    (hs : r.shapeOk = true) :
    r.createImageData =
      some (.ok (r.pixelBuffer.map fun row => row.map rgbaOfVec)) := by
  obtain ⟨hlen, hrows⟩ := (shapeOk_iff r).mp hs
  have hh : r.imgHeight.toNat = r.pixelBuffer.length := by omega
  unfold Renderer.createImageData
  rw [if_neg (by simp [hr])]
  suffices h :
      forRange
        (fun y => forRange (fun x => (r.pixelAt y x).map rgbaOfVec)
          r.imgWidth.toNat) r.imgHeight.toNat =
      some (r.pixelBuffer.map fun row => row.map rgbaOfVec) by
    rw [h]; rfl
  rw [hh]
  rw [forRange_congr r.pixelBuffer.length _
    (fun y => (r.pixelBuffer[y]?).map fun row => row.map rgbaOfVec) ?_]
  · exact forRange_get r.pixelBuffer _
  · intro y hy
    have hrow : r.pixelBuffer[y]? = some r.pixelBuffer[y] :=
      List.getElem?_eq_getElem hy
    have hmem : r.pixelBuffer[y] ∈ r.pixelBuffer := List.getElem_mem hy
    have hw : r.imgWidth.toNat = (r.pixelBuffer[y]).length := by
      have := hrows _ hmem; omega
    dsimp only
    rw [hrow]
    simp only [Option.map_some']
    rw [hw]
    have hfun : (fun x => (r.pixelAt y x).map rgbaOfVec) =
        (fun x => ((r.pixelBuffer[y])[x]?).map rgbaOfVec) := by
      funext x
      simp [Renderer.pixelAt, hrow]
    rw [hfun]
    exact forRange_get _ rgbaOfVec

theorem cid_not_error (r : Renderer) (hr : r.rendered = true) (e : GoError) :
    r.createImageData ≠ some (.error e) := by
  unfold Renderer.createImageData
  rw [if_neg (by simp [hr])]
  cases hfr : forRange
      (fun y => forRange (fun x => (r.pixelAt y x).map rgbaOfVec)
        r.imgWidth.toNat) r.imgHeight.toNat <;>
    simp

theorem mkBuffer_of_nonneg (w h : ℤ) (hw : 0 ≤ w) :
    mkBuffer w h =
      some (List.replicate h.toNat (List.replicate w.toNat (NewVec3 0 0 0))) := by
  unfold mkBuffer
  rw [if_neg]
  rintro ⟨-, hneg⟩
  omega

theorem shape_of_replicate (w h : ℤ) (hw : 0 ≤ w) (hh : 0 ≤ h) :
    ((List.replicate h.toNat (List.replicate w.toNat (NewVec3 0 0 0))).length : ℤ)
        = h ∧
      ∀ row ∈ List.replicate h.toNat (List.replicate w.toNat (NewVec3 0 0 0)),
        (row.length : ℤ) = w := by
  constructor
  · simp [Int.toNat_of_nonneg hh]
  · intro row hrow
    rw [List.eq_of_mem_replicate hrow]
    simp [Int.toNat_of_nonneg hw]

theorem shapeOk_new (w h : ℤ) (hw : 0 ≤ w) (hh : 0 ≤ h) (r : Renderer)
    (hnew : NewRenderer w h = some r) : r.shapeOk = true := by
  unfold NewRenderer at hnew
  rw [mkBuffer_of_nonneg w h hw] at hnew
  simp only [Option.map_some', Option.some.injEq] at hnew
  subst hnew
  exact (shapeOk_iff _).mpr (shape_of_replicate w h hw hh)

theorem shapeOk_resize (r : Renderer) (w h : ℤ) (hw : 0 ≤ w) (hh : 0 ≤ h)
    (r' : Renderer) (hres : r.Resize w h = some r') : r'.shapeOk = true := by
  unfold Renderer.Resize at hres
  rw [mkBuffer_of_nonneg w h hw] at hres
  simp only [Option.map_some', Option.some.injEq] at hres
  subst hres
  exact (shapeOk_iff _).mpr (shape_of_replicate w h hw hh)

theorem stepInv (r r' : Renderer) (op : ROp) (hshape : r.shapeOk = true)
    (hop : dimsOk op = true) (happ : applyOp r op = some r') :
    r'.shapeOk = true := by
  cases op with
  | setSceneOp s =>
    simp only [applyOp, Option.some.injEq] at happ
    subst happ
    exact hshape
  | renderOp =>
    simp only [applyOp, Option.some.injEq] at happ
    subst happ
    exact hshape
  | resizeOp w h =>
    simp only [dimsOk, Bool.and_eq_true, decide_eq_true_eq] at hop
    exact shapeOk_resize r w h hop.1 hop.2 r' happ
  | exportOp env fmt =>
    simp only [applyOp] at happ
    cases hexp : r.Export env fmt with
    | none => rw [hexp] at happ; exact absurd happ (by simp)
    | some p =>
      rw [hexp] at happ
      simp only [Option.map_some', Option.some.injEq] at happ
      subst happ
      exact hshape

theorem applyOps_inv (ops : List ROp) (r r' : Renderer)
    (hshape : r.shapeOk = true) (hall : ops.all dimsOk = true)
    (happ : applyOps r ops = some r') : r'.shapeOk = true := by
  induction ops generalizing r with
  | nil =>
    simp only [applyOps, Option.some.injEq] at happ
    subst happ
    exact hshape
  | cons op rest ih =>
    simp only [List.all_cons, Bool.and_eq_true] at hall
    simp only [applyOps] at happ
    cases h1 : applyOp r op with
    | none => rw [h1] at happ; exact absurd happ (by simp)
    | some r1 =>
      rw [h1] at happ
      simp only [Option.some_bind] at happ
      exact ih r1 (stepInv r r1 op hshape hall.1 h1) hall.2 happ

/-- C1 counterexample: the claim as stated is false on the code. For the
buffer cell (1/2, 1/2, 1/2) the source conversion `uint8(0.5 * 255)`
truncates 127.5 to 127, whereas the claimed formula
round(clamp(0.5,0,1) * 255) yields 128. -/
theorem C1_claim_counterexample :
    rHalf.createImageData = some (.ok [[⟨127, 127, 127, 255⟩]]) ∧
    specChannel (1/2) = 128 ∧ (127 : ℤ) ≠ 128 := by
  refine ⟨?_, ?_, by decide⟩
  · rw [createImageData_eq rHalf rfl (by decide)]
    have hfl : ⌊(2⁻¹ : ℚ) * 255⌋ = 127 := by norm_num [Int.floor_eq_iff]
    simp [rHalf, rgbaOfVec, goUint8, NewVec3, hfl]
  · have hrd : round ((255 : ℚ) / 2) = 128 := by
      norm_num [round_eq, Int.floor_eq_iff]
    simp only [specChannel]
    norm_num [hrd]

/-- C1 (corrected): for every pixel-buffer cell of a rendered renderer
whose buffer shape matches its dimensions, `createImageData` (used by
`Export`) converts each of the three color channels by Go uint8 truncation
of value * 255 (no clamping, no rounding; reduced mod 256 where the Go
result for out-of-range values is implementation-defined, and equal to
plain floor(value * 255) whenever the value lies in [0,1]), and the alpha
channel of every exported pixel is exactly 255. -/
theorem C1_export_truncates (r : Renderer) (hr : r.rendered = true)
    (hs : r.shapeOk = true) :
    r.createImageData =
      some (.ok (r.pixelBuffer.map fun row => row.map fun v =>
        ⟨(⌊v.X * 255⌋).toNat % 256, (⌊v.Y * 255⌋).toNat % 256,
          (⌊v.Z * 255⌋).toNat % 256, 255⟩)) ∧
    ∀ q : ℚ, 0 ≤ q → q ≤ 1 → ((⌊q * 255⌋).toNat % 256 : ℤ) = ⌊q * 255⌋ := by
  constructor
  · exact createImageData_eq r hr hs
  · intro q h0 h1
    have hf0 : 0 ≤ ⌊q * 255⌋ := Int.floor_nonneg.mpr (by positivity)
    have hf1 : ⌊q * 255⌋ ≤ 255 := by
      have hq : q * 255 ≤ 255 := by nlinarith
      calc ⌊q * 255⌋ ≤ ⌊(255 : ℚ)⌋ := Int.floor_le_floor hq
        _ = 255 := by norm_num
    omega

/-- Witness for C1: the truncation theorem applied to the concrete
renderer `rHalf`. -/
theorem C1_export_truncates_witness :
    rHalf.createImageData =
      some (.ok (rHalf.pixelBuffer.map fun row => row.map fun v =>
        ⟨(⌊v.X * 255⌋).toNat % 256, (⌊v.Y * 255⌋).toNat % 256,
          (⌊v.Z * 255⌋).toNat % 256, 255⟩)) ∧
    ∀ q : ℚ, 0 ≤ q → q ≤ 1 → ((⌊q * 255⌋).toNat % 256 : ℤ) = ⌊q * 255⌋ :=
  C1_export_truncates rHalf rfl (by decide)

/-- C2 (confirmed): for every renderer whose rendered flag is false,
Export returns the NotRendered error and touches no file (so no image
data is produced); and whenever the rendered flag is true, no call to
Export can return the NotRendered error — Export never mutates the
renderer, so it may be called repeatedly once rendered. -/
theorem C2_export_requires_render :
    (∀ (r : Renderer) (env : OsEnv) (fmt : ImageFormat),
      r.rendered = false →
        r.Export env fmt = some (.error .notRendered, .noFile)) ∧
    (∀ (r : Renderer) (env : OsEnv) (fmt : ImageFormat),
      r.rendered = true →
        ∀ out ∈ r.Export env fmt, out.1 ≠ .error .notRendered) := by
  constructor
  · intro r env fmt hr
    have hcid : r.createImageData = some (.error .notRendered) := by
      unfold Renderer.createImageData
      rw [if_pos hr]
    unfold Renderer.Export
    rw [hcid]
  · intro r env fmt hr out hmem
    rw [Option.mem_def] at hmem
    unfold Renderer.Export at hmem
    cases hcid : r.createImageData with
    | none => rw [hcid] at hmem; simp at hmem
    | some v =>
      cases v with
      | error e => exact absurd hcid (cid_not_error r hr e)
      | ok img =>
        rw [hcid] at hmem
        dsimp only at hmem
        by_cases hco : env.createOk = false
        · rw [if_pos hco] at hmem
          simp only [Option.some.injEq] at hmem
          subst hmem
          simp
        · rw [if_neg hco] at hmem
          cases fmt with
          | PNG =>
            simp only [Option.some.injEq] at hmem
            subst hmem
            by_cases hp : env.pngErr <;> simp [hp]
          | JPEG =>
            simp only [Option.some.injEq] at hmem
            subst hmem
            by_cases hp : env.jpegErr <;> simp [hp]
          | other v =>
            simp only [Option.some.injEq] at hmem
            subst hmem
            simp

/-- Witness for C2: the not-rendered renderer `rNull` and the rendered
renderer `rDone` at concrete formats and oracle. -/
theorem C2_export_requires_render_witness :
    rNull.Export env0 .PNG = some (.error .notRendered, .noFile) ∧
    ∀ out ∈ rDone.Export env0 (.other 3), out.1 ≠ .error .notRendered :=
  ⟨C2_export_requires_render.1 rNull env0 .PNG rfl,
    C2_export_requires_render.2 rDone env0 (.other 3) rfl⟩

theorem buffer_shape_of_mk (w h : ℤ) (buf : List (List Vec3))
    (hbuf : mkBuffer w h = some buf) :
    buf.length = h.toNat ∧
      (buf.all fun row => decide (row.length = w.toNat)) = true := by
  unfold mkBuffer at hbuf
  by_cases hc : 0 < h ∧ w < 0
  · rw [if_pos hc] at hbuf
    exact absurd hbuf (by simp)
  · rw [if_neg hc] at hbuf
    simp only [Option.some.injEq] at hbuf
    subst hbuf
    refine ⟨by simp, ?_⟩
    rw [List.all_eq_true]
    intro row hrow
    rw [List.eq_of_mem_replicate hrow]
    simp

/-- C3 counterexample: constructing with width = height = 0, and resizing
to width = height = 0, silently succeed and produce a renderer whose
pixel buffer is empty (zero rows); the code offers no error result at all,
so no InvalidDimensions failure occurs. -/
theorem C3_claim_counterexample :
    (NewRenderer 0 0).map (fun r => (r.pixelBuffer, r.rendered)) =
      some ([], false) ∧
    ((NewRenderer 2 1).bind fun r => r.Resize 0 0).map
      (fun r => (r.pixelBuffer, r.rendered)) = some ([], false) := by
  constructor
  · norm_num [NewRenderer, mkBuffer]
  · norm_num [NewRenderer, mkBuffer, Renderer.Resize]

/-- C3 (corrected): NewRenderer and Resize perform no dimension
validation and have no error result. With nonpositive height they
silently return a renderer whose pixel buffer has max(h,0) = h.toNat rows
(in particular an empty buffer for h <= 0), each row of w.toNat cells;
with negative width and positive height the buffer loop hits a Go
run-time panic in make instead of reporting a configuration error. No
InvalidDimensions error exists in the code. -/
theorem C3_no_dimension_validation :
    (∀ w h : ℤ, w ≤ 0 ∨ h ≤ 0 → ∀ r ∈ NewRenderer w h,
      r.pixelBuffer.length = h.toNat ∧
        (r.pixelBuffer.all fun row => decide (row.length = w.toNat)) = true) ∧
    (∀ (r0 : Renderer) (w h : ℤ), w ≤ 0 ∨ h ≤ 0 → ∀ r ∈ r0.Resize w h,
      r.pixelBuffer.length = h.toNat ∧
        (r.pixelBuffer.all fun row => decide (row.length = w.toNat)) = true) ∧
    (∀ w h : ℤ, w < 0 → 0 < h →
      NewRenderer w h = none ∧ ∀ r0 : Renderer, r0.Resize w h = none) := by
  refine ⟨?_, ?_, ?_⟩
  · intro w h _hc r hmem
    rw [Option.mem_def] at hmem
    unfold NewRenderer at hmem
    obtain ⟨buf, hbuf, hfr⟩ := Option.map_eq_some'.mp hmem
    have := buffer_shape_of_mk w h buf hbuf
    rw [← hfr]
    exact this
  · intro r0 w h _hc r hmem
    rw [Option.mem_def] at hmem
    unfold Renderer.Resize at hmem
    obtain ⟨buf, hbuf, hfr⟩ := Option.map_eq_some'.mp hmem
    have := buffer_shape_of_mk w h buf hbuf
    rw [← hfr]
    exact this
  · intro w h hwneg hhpos
    have hmk : mkBuffer w h = none := by
      unfold mkBuffer
      rw [if_pos ⟨hhpos, hwneg⟩]
    constructor
    · unfold NewRenderer; rw [hmk]; rfl
    · intro r0; unfold Renderer.Resize; rw [hmk]; rfl

/-- Witness for C3: the construction part applied at width 0, height 0. -/
theorem C3_no_dimension_validation_witness :
    ((0 : ℤ) ≤ 0 ∨ (0 : ℤ) ≤ 0) ∧
    ∀ r ∈ NewRenderer 0 0,
      r.pixelBuffer.length = (0 : ℤ).toNat ∧
        (r.pixelBuffer.all fun row =>
          decide (row.length = (0 : ℤ).toNat)) = true :=
  ⟨Or.inl (by decide),
    C3_no_dimension_validation.1 0 0 (Or.inl (by decide))⟩

/-- C4 (confirmed): after a completed render (with the buffer shaped to
the stored dimensions) and a successful file creation, Export with any
format other than PNG and JPEG returns the unsupported-image-format
error. -/
theorem C4_unsupported_format_error (r : Renderer) (env : OsEnv)
    (fmt : ImageFormat) (hr : r.rendered = true) (hs : r.shapeOk = true)
    (hc : env.createOk = true) (hpng : fmt ≠ .PNG) (hjpeg : fmt ≠ .JPEG) :
    (r.Export env fmt).map Prod.fst =
      some (.error (.unsupportedFormat fmt)) := by
  unfold Renderer.Export
  rw [createImageData_eq r hr hs]
  dsimp only
  rw [if_neg (by simp [hc])]
  cases fmt with
  | PNG => exact absurd rfl hpng
  | JPEG => exact absurd rfl hjpeg
  | other v => rfl

/-- Witness for C4: the rendered renderer `rDone` with a concrete
unsupported format value. -/
theorem C4_unsupported_format_error_witness :
    (rDone.Export env0 (.other 3)).map Prod.fst =
      some (.error (.unsupportedFormat (.other 3))) :=
  C4_unsupported_format_error rDone env0 (.other 3) rfl (by decide) rfl
    (by decide) (by decide)

/-- C5 counterexample: the claim as stated quantifies over every w and h;
at h = -1 the resized-then-rendered buffer has 0 rows, not h rows. -/
theorem C5_claim_counterexample :
    ((NewRenderer 1 1).bind fun r => r.Resize 3 (-1)).map
      (fun r' => ((r'.Render).pixelBuffer.length : ℤ)) = some 0 ∧
    (0 : ℤ) ≠ -1 := by
  constructor
  · norm_num [NewRenderer, mkBuffer, Renderer.Resize, Renderer.Render]
  · decide

/-- C5 (corrected): for every w >= 0 and h >= 0, Resize(w, h) succeeds and
a following Render leaves the pixel buffer with exactly h rows each of w
columns; Resize resets the rendered flag to false and the flag is true
after Render completes. (For negative dimensions the code instead produces
an empty buffer or panics, see the counterexample.) -/
theorem C5_resize_render_shape (r : Renderer) (w h : ℤ)
    (hw : 0 ≤ w) (hh : 0 ≤ h) :
    (r.Resize w h).isSome = true ∧
    ∀ r' ∈ r.Resize w h,
      r'.rendered = false ∧
      (r'.Render).rendered = true ∧
      ((r'.Render).pixelBuffer.length : ℤ) = h ∧
      ((r'.Render).pixelBuffer.all fun row =>
        decide ((row.length : ℤ) = w)) = true := by
  have hmk := mkBuffer_of_nonneg w h hw
  constructor
  · unfold Renderer.Resize
    rw [hmk]
    rfl
  · intro r' hmem
    rw [Option.mem_def] at hmem
    unfold Renderer.Resize at hmem
    rw [hmk] at hmem
    simp only [Option.map_some', Option.some.injEq] at hmem
    subst hmem
    refine ⟨rfl, rfl, ?_, ?_⟩
    · simp [Renderer.Render, Int.toNat_of_nonneg hh]
    · rw [List.all_eq_true]
      intro row hrow
      simp only [Renderer.Render] at hrow
      rw [List.eq_of_mem_replicate hrow]
      simp [Int.toNat_of_nonneg hw]

/-- Witness for C5: applied to the concrete renderer `rNull` with
dimensions 3 by 2. -/
theorem C5_resize_render_shape_witness :
    (rNull.Resize 3 2).isSome = true ∧
    ∀ r' ∈ rNull.Resize 3 2,
      r'.rendered = false ∧
      (r'.Render).rendered = true ∧
      ((r'.Render).pixelBuffer.length : ℤ) = 2 ∧
      ((r'.Render).pixelBuffer.all fun row =>
        decide ((row.length : ℤ) = 3)) = true :=
  C5_resize_render_shape rNull 3 2 (by decide) (by decide)

/-- C6 (confirmed against the spec model): for every renderer attached to
a scene containing zero primitives, rendering succeeds and every cell of
the resulting pixel buffer equals the configured background color. The
rendering loop is a stub in src, so the render body is the spec-modelled
`renderModel`. -/
theorem C6_empty_scene_background (sq : ℚ → ℚ) (bg : Vec3) (maxDepth : ℕ)
    (tMin tMax : ℚ) (r : Renderer) (s : Scene)
    (hsc : r.scene = some s) (hprim : s.primitives = []) :
    (r.renderModel sq bg maxDepth tMin tMax).isSome = true ∧
    ∀ r' ∈ r.renderModel sq bg maxDepth tMin tMax,
      r'.rendered = true ∧
      (r'.pixelBuffer.all fun row => row.all fun c => decide (c = bg)) = true := by
  have hnh : ∀ ray, nearestHit s ray tMin tMax = none := by
    intro ray
    unfold nearestHit
    rw [hprim]
    rfl
  constructor
  · unfold Renderer.renderModel
    rw [hsc]
    rfl
  · intro r' hmem
    rw [Option.mem_def] at hmem
    unfold Renderer.renderModel at hmem
    rw [hsc] at hmem
    simp only [Option.map_some', Option.some.injEq] at hmem
    subst hmem
    refine ⟨rfl, ?_⟩
    rw [List.all_eq_true]
    intro row hrow
    simp only [List.mem_map] at hrow
    obtain ⟨y, hy, rfl⟩ := hrow
    rw [List.all_eq_true]
    intro c hc
    simp only [List.mem_map] at hc
    obtain ⟨x, hx, rfl⟩ := hc
    simp only [colorFor, hnh]
    simp

/-- Witness for C6: the concrete 2-by-2 renderer holding the empty scene,
with a concrete background color, bounce limit and t-range. -/
theorem C6_empty_scene_background_witness :
    (rEmptyScene.renderModel (fun q => q) (NewVec3 1 (1/2) 0) 3 (1/10000)
      1000).isSome = true ∧
    ∀ r' ∈ rEmptyScene.renderModel (fun q => q) (NewVec3 1 (1/2) 0) 3
        (1/10000) 1000,
      r'.rendered = true ∧
      (r'.pixelBuffer.all fun row => row.all fun c =>
        decide (c = NewVec3 1 (1/2) 0)) = true :=
  C6_empty_scene_background (fun q => q) (NewVec3 1 (1/2) 0) 3 (1/10000)
    1000 rEmptyScene NewScene rfl rfl

/-- C7 (confirmed): for every vector operation with both an in-place
mutator and a pure variant (Add, Sub, Mul, Div, Negate/Neg,
Normalize/Normal), applying the in-place mutator to a vector yields
exactly the same value as computing the pure variant and reassigning the
result; this holds for every choice of the external square-root
function. -/
theorem C7_inplace_matches_pure :
    ∀ (sq : ℚ → ℚ) (v v2 : Vec3) (s : ℚ),
      Vec3.Add v v2 = geometry.Add v v2 ∧
      Vec3.Sub v v2 = geometry.Sub v v2 ∧
      Vec3.Mul v s = geometry.Mul v s ∧
      Vec3.Div v s = geometry.Div v s ∧
      Vec3.Negate v = Vec3.Neg v ∧
      Vec3.Normalize sq v = Vec3.Normal sq v := by
  intro sq v v2 s
  exact ⟨rfl, rfl, rfl, rfl, rfl, rfl⟩

/-- C8 (confirmed): for every ray, At(0) equals the origin of the ray,
and for every t, At(t) equals origin + t * direction component-wise (all
rationals are finite, matching the finite-t proviso of the claim). -/
theorem C8_ray_at :
    ∀ (r : Ray) (t : ℚ),
      Ray.At r 0 = Ray.Origin r ∧
      (Ray.At r t).X = (Ray.Origin r).X + t * (Ray.Direction r).X ∧
      (Ray.At r t).Y = (Ray.Origin r).Y + t * (Ray.Direction r).Y ∧
      (Ray.At r t).Z = (Ray.Origin r).Z + t * (Ray.Direction r).Z := by
  intro r t
  obtain ⟨⟨ox, oy, oz⟩, ⟨dx, dy, dz⟩⟩ := r
  refine ⟨?_, ?_, ?_, ?_⟩ <;>
    simp [Ray.At, Ray.Origin, Ray.Direction, geometry.Add, geometry.Mul] <;>
    ring

/-- C9 counterexample: the invariant as stated fails right after
NewRenderer(5, -1): the stored height is -1 but the buffer has 0 rows. -/
theorem C9_claim_counterexample :
    (NewRenderer 5 (-1)).map
      (fun r => ((r.pixelBuffer.length : ℤ), r.imgHeight)) = some (0, -1) ∧
    (0 : ℤ) ≠ -1 := by
  constructor
  · norm_num [NewRenderer, mkBuffer]
  · decide

/-- C9 (corrected): for nonnegative construction dimensions and every
subsequent sequence of operations (SetScene, Render, Resize with
nonnegative dimensions, Export), the pixel buffer of the resulting
renderer has exactly imgHeight rows and every row has exactly imgWidth
cells, where imgWidth/imgHeight are the stored dimensions. -/
theorem C9_shape_invariant (w h : ℤ) (hw : 0 ≤ w) (hh : 0 ≤ h)
    (ops : List ROp) (hall : ops.all dimsOk = true) :
    ∀ r0 ∈ NewRenderer w h, ∀ r1 ∈ applyOps r0 ops, r1.shapeOk = true := by
  intro r0 h0 r1 h1
  rw [Option.mem_def] at h0 h1
  exact applyOps_inv ops r0 r1 (shapeOk_new w h hw hh r0 h0) hall h1

/-- Witness for C9: construction at 2 by 1 followed by a render and a
resize to 3 by 2. -/
theorem C9_shape_invariant_witness :
    opsC9.all dimsOk = true ∧
    ∀ r0 ∈ NewRenderer 2 1, ∀ r1 ∈ applyOps r0 opsC9, r1.shapeOk = true :=
  ⟨by decide, C9_shape_invariant 2 1 (by decide) (by decide) opsC9 (by decide)⟩

/-- C10 (confirmed): when Export is called after a completed render (with
the buffer shaped to the stored dimensions), file creation succeeds, and
the format is neither PNG nor JPEG, the file at the given path has been
created or truncated and is empty (zero bytes written) when the
unsupported-format error is returned: the failure is not atomic with
respect to the filesystem. -/
theorem C10_file_created_on_unsupported (r : Renderer) (env : OsEnv)
    (fmt : ImageFormat) (hr : r.rendered = true) (hs : r.shapeOk = true)
    (hc : env.createOk = true) (hpng : fmt ≠ .PNG) (hjpeg : fmt ≠ .JPEG) :
    r.Export env fmt = some (.error (.unsupportedFormat fmt), .file 0) := by
  unfold Renderer.Export
  rw [createImageData_eq r hr hs]
  dsimp only
  rw [if_neg (by simp [hc])]
  cases fmt with
  | PNG => exact absurd rfl hpng
  | JPEG => exact absurd rfl hjpeg
  | other v => rfl

/-- Witness for C10: the rendered renderer `rDone` with a concrete
unsupported format value. -/
theorem C10_file_created_on_unsupported_witness :
    rDone.Export env0 (.other 9) =
      some (.error (.unsupportedFormat (.other 9)), .file 0) :=
  C10_file_created_on_unsupported rDone env0 (.other 9) rfl (by decide) rfl
    (by decide) (by decide)
